import Mathlib

/-!
Shallow embedding of `commoncrawl.py`, a script that queries the Common Crawl
CDX index API for all URLs recorded for a domain.

External library calls (`requests.get`, `json.loads`, `argparse`,
`ThreadPoolExecutor`) are modelled as explicit parameters or from their
documented behaviour; every piece of logic belonging to the script itself is
translated directly from the source.

Python strings are modelled as Lean `String`, with the string primitives the
script uses (`split`, `strip`, slicing, `int()`) re-implemented by structural
recursion over the character list so that every definition evaluates inside
the kernel.
-/

namespace Commoncrawl

/-! ### Python values and exceptions -/

/-- A Python value as returned by `json.loads`: JSON strings, integers,
booleans, null, arrays and objects.  JSON floats are not exercised by any
claim and are omitted; objects are association lists whose keys are unique
(as produced by `json.loads`, which keeps the last binding for a repeated
key). -/
inductive JsonVal where
  | str (s : String)
  | num (n : Int)
  | bool (b : Bool)
  | null
  | arr (elems : List JsonVal)
  | obj (fields : List (String × JsonVal))

/-- Python exceptions that can escape the line-processing loop of
`query_cdx`: `record["url"]` raises `KeyError` when `record` is a dict
without that key, and `TypeError` when `record` is not a dict (a list,
string, number, boolean or `None`).  Neither is caught by the script's
`except json.JSONDecodeError` handler. -/
inductive PyErr where
  | keyError (key : String)
  | typeError
  deriving DecidableEq, Repr

/-! ### Python string primitives -/

/-- `str.split(sep)` for a one-character separator, on character lists:
Python `"a--b".split("-") == ["a", "", "b"]` and `"".split("-") == [""]`. -/
def splitChars (sep : Char) : List Char → List (List Char)
  | [] => [[]]
  | c :: rest =>
    let r := splitChars sep rest
    if c = sep then [] :: r
    else
      match r with
      | [] => [[c]]
      | group :: groups => (c :: group) :: groups

/-- Python `s.split(sep)` for a one-character separator. -/
def pySplit (sep : Char) (s : String) : List String :=
  (splitChars sep s.data).map String.mk

/-- The ASCII whitespace characters stripped by Python's `str.strip()`. -/
def isPySpace (c : Char) : Bool :=
  c == ' ' || c == '\t' || c == '\n' || c == '\r' || c == '\x0b' || c == '\x0c'

/-- Python `s.strip()`: remove leading and trailing whitespace. -/
def pyStrip (s : String) : String :=
  String.mk (((s.data.dropWhile isPySpace).reverse.dropWhile isPySpace).reverse)

/-- Python slicing `s[:n]` (by characters). -/
def pyTake (n : Nat) (s : String) : String :=
  String.mk (s.data.take n)

/-- Accumulating decimal parser: `none` input accumulator means no digit has
been consumed yet, so an empty digit string yields `none`. -/
def digitsToNat : List Char → Option Nat → Option Nat
  | [], acc => acc
  | c :: rest, acc =>
    if '0' ≤ c ∧ c ≤ '9' then
      digitsToNat rest (some (10 * (acc.getD 0) + (c.toNat - '0'.toNat)))
    else
      none

/-- Python `int(s)` (returning `none` where Python raises `ValueError`):
strip surrounding whitespace, allow one optional sign, then decimal digits.
(Python additionally allows underscore digit grouping, which the Common
Crawl catalog never produces and no claim exercises.) -/
def pyInt? (s : String) : Option Int :=
  match (pyStrip s).data with
  | '-' :: rest => (digitsToNat rest none).map (fun n => -(n : Int))
  | '+' :: rest => (digitsToNat rest none).map (fun n => (n : Int))
  | t => (digitsToNat t none).map (fun n => (n : Int))

/-- Python truthiness of an optional integer CLI argument: `None` and `0`
are falsy, every other integer is truthy. -/
def pyTruthy : Option Int → Bool
  | none => false
  | some n => n != 0

/-! ### Index Lister (`get_all_indexes`, source lines 15-37) -/

/-- `int(index_id.split("-")[2][:4])` from line 28: `none` models the
`IndexError` (fewer than three dash-separated chunks) or `ValueError`
(non-numeric chunk) caught on line 34. -/
def parseYear (index_id : String) : Option Int :=
  match (pySplit '-' index_id).get? 2 with
  | none => none
  | some chunk => pyInt? (pyTake 4 chunk)

/-- The filtering loop of `get_all_indexes` (lines 25-37): for each id, parse
the year; on `IndexError`/`ValueError` skip the entry (`continue`); skip when
`after and year < after`; skip when `before and year >= before`; otherwise
append the id to `filtered`. -/
def filterIndexes (after before : Option Int) : List String → List String
  | [] => []
  | index_id :: rest =>
    match parseYear index_id with
    | none => filterIndexes after before rest
    | some year =>
      if pyTruthy after ∧ year < after.getD 0 then
        filterIndexes after before rest
      else if pyTruthy before ∧ year ≥ before.getD 0 then
        filterIndexes after before rest
      else
        index_id :: filterIndexes after before rest

/-- `get_all_indexes` (lines 15-37).  The metadata fetch
`requests.get(f"{CDX_BASE}/collinfo.json")` / `raise_for_status()` /
`[entry["id"] for entry in resp.json()]` is an external HTTP + JSON step,
modelled by the `fetched` parameter: `none` when a
`requests.exceptions.RequestException` is raised (endpoint unreachable,
timeout, non-2xx status, or invalid JSON — `Response.json()` raises
`requests.exceptions.JSONDecodeError`, a `RequestException`), in which case
the handler on lines 21-23 prints an error and returns `[]`; `some ids` is
the list of `id` fields on success. -/
def get_all_indexes (fetched : Option (List String)) (after before : Option Int) :
    List String :=
  match fetched with
  | none => []
  | some all_indexes => filterIndexes after before all_indexes

/-! ### Per-index query (`query_cdx`, source lines 40-62) -/

/-- Python dict lookup in a parsed JSON object (unique keys). -/
def lookupField (key : String) : List (String × JsonVal) → Option JsonVal
  | [] => none
  | (k, v) :: rest => if k = key then some v else lookupField key rest

/-- `record["url"]` from line 54: succeeds on a dict containing `"url"`,
raises `KeyError` on a dict without it, raises `TypeError` on any non-dict
value. -/
def getUrl : JsonVal → Except PyErr JsonVal
  | .obj fields =>
    match lookupField "url" fields with
    | some v => .ok v
    | none => .error (.keyError "url")
  | _ => .error .typeError

/-- The line loop of `query_cdx` (lines 51-56), over an already-split list of
lines with the accumulated `urls` list: `json.loads(line)` is modelled by the
`loads` parameter (`none` where Python raises `json.JSONDecodeError`, which
the `except` on line 55 turns into `continue`); `record["url"]` failures are
uncaught and abort the loop. -/
def processLines (loads : String → Option JsonVal) :
    List String → List JsonVal → Except PyErr (List JsonVal)
  | [], urls => .ok urls
  | line :: rest, urls =>
    match loads line with
    | none => processLines loads rest urls
    | some record =>
      match getUrl record with
      | .ok u => processLines loads rest (urls ++ [u])
      | .error e => .error e

/-- `for line in resp.text.strip().split("\n")` (line 51) followed by the
line loop, starting from the empty `urls` list of line 45. -/
def processBody (loads : String → Option JsonVal) (text : String) :
    Except PyErr (List JsonVal) :=
  processLines loads (pySplit '\n' (pyStrip text)) []

/-- The `for attempt in range(1)` loop of `query_cdx` (lines 47-61):
`responses attempt` is the outcome of the HTTP GET of line 49 together with
`raise_for_status()` (`none` when a `requests.exceptions.RequestException`
is raised — timeout, connection error, non-2xx status — which the handler on
lines 58-60 turns into a warning, `time.sleep(1)` and the next iteration;
`some text` is `resp.text` on success).  Returns the loop's outcome paired
with the number of HTTP attempts made.  On success the body is processed and
the loop `break`s; an uncaught `record["url"]` error propagates. -/
def cdxAttempts (loads : String → Option JsonVal) (responses : Nat → Option String) :
    List Nat → Except PyErr (List JsonVal) × Nat
  | [] => (.ok [], 0)
  | attempt :: rest =>
    match responses attempt with
    | some text => (processBody loads text, 1)
    | none =>
      ((cdxAttempts loads responses rest).1,
        (cdxAttempts loads responses rest).2 + 1)

/-- `query_cdx` (lines 40-62): the attempt loop run over `range(1)`, so at
most one HTTP attempt; when the single attempt fails the function falls
through the loop and returns the still-empty `urls` list. -/
def query_cdx (loads : String → Option JsonVal) (responses : Nat → Option String) :
    Except PyErr (List JsonVal) × Nat :=
  cdxAttempts loads responses (List.range 1)

/-! ### Dispatcher (`main`, source lines 86-107) -/

/-- The sequential branch of `main` (lines 89-93, taken when
`args.concurrency == 1`): query each index in listing order and
`total_urls.extend(urls)`.  Returns the list of indexes actually queried and
the outcome: an exception raised by `query_cdx` is not caught here, so it
aborts the loop (and `main`). -/
def seqDispatchTraced (loads : String → Option JsonVal)
    (responses : String → Nat → Option String) :
    List String → List String × Except PyErr (List JsonVal)
  | [] => ([], .ok [])
  | index :: rest =>
    match (query_cdx loads (responses index)).1 with
    | .error e => ([index], .error e)
    | .ok urls =>
      (index :: (seqDispatchTraced loads responses rest).1,
        ((seqDispatchTraced loads responses rest).2).map (fun us => urls ++ us))

/-- The aggregated outcome of the sequential branch. -/
def seq_dispatch (loads : String → Option JsonVal)
    (responses : String → Nat → Option String) (indexes : List String) :
    Except PyErr (List JsonVal) :=
  (seqDispatchTraced loads responses indexes).2

/-- One index's contribution in the thread-pool branch (lines 97-105):
`future.result()` re-raises any exception from `query_cdx`, the
`except Exception` handler on line 104 prints a message and the index
contributes nothing; otherwise `total_urls.extend(urls)` under the lock. -/
def concContribution (loads : String → Option JsonVal)
    (responses : String → Nat → Option String) (index : String) : List JsonVal :=
  match (query_cdx loads (responses index)).1 with
  | .ok urls => urls
  | .error _ => []

/-- The thread-pool branch of `main` (lines 95-105): futures are consumed in
completion order (`as_completed`), modelled by the `completed` list — a
permutation of the submitted indexes. -/
def conc_dispatch (loads : String → Option JsonVal)
    (responses : String → Nat → Option String) (completed : List String) :
    List JsonVal :=
  completed.flatMap (concContribution loads responses)

/-- `total_urls = list(set(total_urls))` (line 107), viewed as the set it
denotes: deduplication by exact equality, order immaterial. -/
def result_set (urls : List String) : Finset String :=
  urls.toFinset

/-- The per-index URL lists accumulated into `total_urls` by the `extend`
calls on lines 93/103, in arrival order. -/
def aggregate (results : List (List String)) : List String :=
  results.flatten

/-! ### Output file (`main`, source lines 110-123) -/

/-- `sorted(total_urls)` after `total_urls = list(set(total_urls))`:
the unique URLs in lexicographic order (Python's `sorted` on `str` compares
code points, as Lean's `≤` on `String` does). -/
def sorted_unique (urls : List String) : List String :=
  (urls.dedup).mergeSort (fun a b => decide (a ≤ b))

/-- The text written by the loop on lines 122-123: each sorted unique URL
followed by a newline (`f.write(f"{url}\n")`). -/
def output_lines (urls : List String) : String :=
  String.join ((sorted_unique urls).map (fun u => u ++ "\n"))

/-- The output-file block (lines 113-123): `open(path, "a")` appends after
the existing content, `open(path, "w")` truncates first.  `existing` is the
file's prior content; the result is its content after the run. -/
def write_output (existing : String) (append : Bool) (urls : List String) :
    String :=
  if append then existing ++ output_lines urls else output_lines urls

/-! ### The whole run (`main`, source lines 64-123) -/

/-- Observable outcome of one invocation of the script. -/
structure MainRun where
  exitCode : Nat
  queried : List String
  results : Option (List JsonVal)
  reportedNoIndexes : Bool

/-- `main` (lines 64-123) as a function of its environment.

* `argvUrl`: the positional `url` argument; `none` means no domain argument
  was supplied on the command line, in which case `argparse` itself reports a
  usage error and raises `SystemExit(2)` (a required positional is missing),
  so the script's own `if not args.url: sys.exit(1)` check on lines 75-77 is
  reached only when the supplied domain is an empty string (the only falsy
  `str`).
* `metadata`: outcome of the catalog fetch, as in `get_all_indexes`.
* `responses`: per-index, per-attempt HTTP outcome, as in `query_cdx`.
* `completed`: the completion order of `as_completed` in the thread-pool
  branch, as a function of the submitted index list.
* When `concurrency ≠ 1`, `ThreadPoolExecutor(max_workers=concurrency)`
  raises `ValueError` for `concurrency ≤ 0`, which is uncaught (exit code 1).
* An exception escaping the sequential loop is uncaught: the interpreter
  prints a traceback and exits with code 1.
* In the `results` field, `none` means the run never reached line 107
  (no `ResultSet` was produced); `some urls` is `total_urls` before the
  `set` deduplication. -/
def run_main (loads : String → Option JsonVal) (metadata : Option (List String))
    (responses : String → Nat → Option String)
    (completed : List String → List String) (argvUrl : Option String)
    (after before : Option Int) (concurrency : Int) : MainRun :=
  match argvUrl with
  | none => ⟨2, [], none, false⟩
  | some url =>
    if url = "" then ⟨1, [], none, false⟩
    else
      let idxs := get_all_indexes metadata after before
      if idxs = [] then ⟨0, [], none, true⟩
      else if concurrency = 1 then
        match seqDispatchTraced loads responses idxs with
        | (q, .error _) => ⟨1, q, none, false⟩
        | (q, .ok urls) => ⟨0, q, some urls, false⟩
      else if concurrency ≤ 0 then ⟨1, [], none, false⟩
      else
        let order := completed idxs
        ⟨0, order, some (conc_dispatch loads responses order), false⟩

/-! ### Concrete fixtures

A concrete instantiation of the external `json.loads` on the few response
lines used in examples, agreeing with Python's `json` module on those inputs:
`{"url": "a"}` and `{"url": "b"}` parse to dicts containing `"url"`,
`{"x": 1}` parses to a dict without it, and `not json` fails to parse. -/

/-- The response line `{"url": "a"}` (braces written as character escapes). -/
def lineUrlA : String := "\x7b\"url\": \"a\"\x7d"

/-- The response line `{"x": 1}`: valid JSON, but no `url` field. -/
def lineNoUrl : String := "\x7b\"x\": 1\x7d"

/-- The response line `{"url": "b"}`. -/
def lineUrlB : String := "\x7b\"url\": \"b\"\x7d"

/-- `json.loads` on the concrete lines used by the examples. -/
def loadsEx : String → Option JsonVal := fun s =>
  if s = lineUrlA then some (.obj [("url", .str "a")])
  else if s = lineNoUrl then some (.obj [("x", .num 1)])
  else if s = lineUrlB then some (.obj [("url", .str "b")])
  else none

/-- Canned HTTP outcomes for two indexes: `i1` answers with a body whose only
line is valid JSON without a `url` field; `i2` answers with one record whose
`url` is `"b"`; every other index (and every retry attempt) fails with a
network error. -/
def responsesEx : String → Nat → Option String := fun index attempt =>
  if attempt = 0 then
    if index = "i1" then some lineNoUrl
    else if index = "i2" then some lineUrlB
    else none
  else none

/-- A response body whose middle line is valid JSON without a `url` field:
`{"url": "a"}`, then `{"x": 1}`, then `{"url": "b"}`. -/
def bodyWithNoUrlLine : String := lineUrlA ++ "\n" ++ lineNoUrl ++ "\n" ++ lineUrlB

/-- A response body whose middle line is not valid JSON:
`{"url": "a"}`, then `not json`, then `{"url": "b"}`. -/
def bodyWithBadJsonLine : String := lineUrlA ++ "\n" ++ "not json" ++ "\n" ++ lineUrlB

/-! ### Helper lemmas about the index filter -/

/-- The per-entry keep decision implemented by the loop body of
`get_all_indexes`: an entry is kept iff its year parses and neither skip
condition fires. -/
def keepIndex (after before : Option Int) (index_id : String) : Bool :=
  match parseYear index_id with
  | none => false
  | some year =>
    !(pyTruthy after && decide (year < after.getD 0))
      && !(pyTruthy before && decide (year ≥ before.getD 0))

theorem filterIndexes_eq_filter (after before : Option Int) (ids : List String) :
    filterIndexes after before ids = ids.filter (keepIndex after before) := by
  induction ids with
  | nil => rfl
  | cons id rest ih =>
    cases hy : parseYear id with
    | none => simp [filterIndexes, hy, List.filter_cons, keepIndex, ih]
    | some y =>
      simp only [filterIndexes, hy, ih, List.filter_cons, keepIndex]
      cases hpa : pyTruthy after <;> cases hpb : pyTruthy before <;>
        by_cases hlt : y < after.getD 0 <;> by_cases hge : y ≥ before.getD 0 <;>
          simp [hpa, hpb, hlt, hge]

theorem not_mem_filterIndexes_of_parse_none (after before : Option Int)
    (ids : List String) (id : String) (h : parseYear id = none) :
    id ∉ filterIndexes after before ids := by
  rw [filterIndexes_eq_filter]
  intro hmem
  have := (List.mem_filter.mp hmem).2
  simp [keepIndex, h] at this

/-! ### Claims C4, C5, C10: the year filter -/

/-- Claim C4, counterexample: with no filter requested (`after = before =
none`), the entry `"hello"`, whose year cannot be parsed, is dropped — the
claim says it is silently kept in that case. -/
theorem claim4_counterexample :
    filterIndexes none none ["CC-MAIN-2024-33", "hello"] = ["CC-MAIN-2024-33"]
    ∧ parseYear "hello" = none
    ∧ "hello" ∉ filterIndexes none none ["CC-MAIN-2024-33", "hello"] := by
  refine ⟨by decide, by decide, by decide⟩

/-- Claim C4, amended: a catalog entry whose embedded year token cannot be
parsed as an integer is silently dropped by `get_all_indexes` regardless of
whether any year filter (`after` or `before`) is active. -/
theorem claim4_unparsable_dropped (after before : Option Int) (ids : List String)
    (id : String) (h : parseYear id = none) :
    id ∉ filterIndexes after before ids :=
  not_mem_filterIndexes_of_parse_none after before ids id h

/-- Witness for C4 at a concrete input. -/
theorem claim4_witness :
    parseYear "hello" = none ∧ "hello" ∉ filterIndexes none none ["hello"] :=
  ⟨by decide, claim4_unparsable_dropped none none ["hello"] "hello" (by decide)⟩

theorem keepIndex_true_iff (after before : Option Int) (id : String)
    (ha : ∀ a, after = some a → a ≠ 0) (hb : ∀ b, before = some b → b ≠ 0) :
    keepIndex after before id = true ↔
      ∃ y, parseYear id = some y
        ∧ (∀ a, after = some a → a ≤ y) ∧ (∀ b, before = some b → y < b) := by
  cases hy : parseYear id with
  | none => simp [keepIndex, hy]
  | some y =>
    have ha' : ∀ a, after = some a → (a != 0) = true := fun a h => by
      simpa using ha a h
    have hb' : ∀ b, before = some b → (b != 0) = true := fun b h => by
      simpa using hb b h
    rcases after with _ | a <;> rcases before with _ | b
    · simp [keepIndex, hy, pyTruthy]
    · simp [keepIndex, hy, pyTruthy, hb' b rfl]
    · simp [keepIndex, hy, pyTruthy, ha' a rfl]
    · simp [keepIndex, hy, pyTruthy, ha' a rfl, hb' b rfl]

/-- Claim C5, counterexample: with `before = 0` supplied, the claim as
stated requires an entry to be retained only if its year is `< 0`; the code
tests the bound for truthiness first, so `before = 0` excludes nothing and
`CC-MAIN-2024-33` (year 2024) is retained. -/
theorem claim5_counterexample :
    filterIndexes none (some 0) ["CC-MAIN-2024-33"] = ["CC-MAIN-2024-33"]
    ∧ parseYear "CC-MAIN-2024-33" = some 2024
    ∧ ¬ ((2024 : Int) < 0) := by
  refine ⟨by decide, by decide, by decide⟩

/-- Claim C5, amended: for every catalog entry whose year parses,
`get_all_indexes` retains the entry iff its year satisfies
`yearAfter ≤ year < yearBefore`, each bound applying only when supplied and
nonzero; in particular, for descriptors with years 2021-2024 and
`after = 2022`, `before = 2024`, exactly the 2022 and 2023 descriptors are
retained. -/
theorem claim5_year_filter (after before : Option Int) (ids : List String)
    (id : String) (ha : ∀ a, after = some a → a ≠ 0)
    (hb : ∀ b, before = some b → b ≠ 0) :
    (id ∈ filterIndexes after before ids ↔
      id ∈ ids ∧ ∃ y, parseYear id = some y
        ∧ (∀ a, after = some a → a ≤ y) ∧ (∀ b, before = some b → y < b))
    ∧ filterIndexes (some 2022) (some 2024)
        ["CC-MAIN-2021-04", "CC-MAIN-2022-05", "CC-MAIN-2023-06", "CC-MAIN-2024-33"]
      = ["CC-MAIN-2022-05", "CC-MAIN-2023-06"] := by
  constructor
  · rw [filterIndexes_eq_filter, List.mem_filter,
      keepIndex_true_iff after before id ha hb]
  · decide

/-- Witness for C5 at a concrete input. -/
theorem claim5_witness :
    "CC-MAIN-2023-06" ∈ filterIndexes (some 2022) (some 2024)
        ["CC-MAIN-2021-04", "CC-MAIN-2022-05", "CC-MAIN-2023-06", "CC-MAIN-2024-33"]
    ↔ "CC-MAIN-2023-06" ∈
        (["CC-MAIN-2021-04", "CC-MAIN-2022-05", "CC-MAIN-2023-06",
          "CC-MAIN-2024-33"] : List String)
      ∧ ∃ y, parseYear "CC-MAIN-2023-06" = some y
        ∧ (∀ a, (some 2022 : Option Int) = some a → a ≤ y)
        ∧ (∀ b, (some 2024 : Option Int) = some b → y < b) :=
  (claim5_year_filter (some 2022) (some 2024)
    ["CC-MAIN-2021-04", "CC-MAIN-2022-05", "CC-MAIN-2023-06", "CC-MAIN-2024-33"]
    "CC-MAIN-2023-06" (fun a h => by cases h; decide)
    (fun b h => by cases h; decide)).1

/-- Claim C10: a year bound equal to 0 is treated as if absent (the bound is
tested for truthiness before being compared, and `0` is falsy), yet entries
whose year cannot be parsed are still dropped when `after = 0` or
`before = 0` is supplied. -/
theorem claim10_zero_bound (after before : Option Int) (ids : List String)
    (id : String) :
    filterIndexes (some 0) before ids = filterIndexes none before ids
    ∧ filterIndexes after (some 0) ids = filterIndexes after none ids
    ∧ (parseYear id = none →
        id ∉ filterIndexes (some 0) before ids
        ∧ id ∉ filterIndexes after (some 0) ids) := by
  refine ⟨?_, ?_, fun h => ⟨not_mem_filterIndexes_of_parse_none _ _ _ _ h,
    not_mem_filterIndexes_of_parse_none _ _ _ _ h⟩⟩
  · induction ids with
    | nil => rfl
    | cons id' rest ih =>
      cases hy : parseYear id' <;> simp [filterIndexes, hy, pyTruthy, ih]
  · induction ids with
    | nil => rfl
    | cons id' rest ih =>
      cases hy : parseYear id' <;> simp [filterIndexes, hy, pyTruthy, ih]

/-- Witness for C10 at a concrete input. -/
theorem claim10_witness :
    filterIndexes (some 0) (some 2024) ["CC-MAIN-2023-06"]
      = filterIndexes none (some 2024) ["CC-MAIN-2023-06"]
    ∧ "hello" ∉ filterIndexes (some 0) none ["hello"] :=
  ⟨(claim10_zero_bound none (some 2024) ["CC-MAIN-2023-06"] "x").1,
    ((claim10_zero_bound none none ["hello"] "hello").2.2 (by decide)).1⟩

/-! ### Claim C1: the aggregated ResultSet is an order-independent union -/

theorem result_set_aggregate_foldr (results : List (List String)) :
    result_set (aggregate results)
      = results.foldr (fun l s => l.toFinset ∪ s) ∅ := by
  induction results with
  | nil => rfl
  | cons l rest ih =>
    simp only [aggregate, result_set, List.flatten_cons, List.toFinset_append,
      List.foldr_cons] at *
    rw [ih]

/-- Claim C1: for every sequence of per-index query results (including empty
and overlapping URL lists), the final `ResultSet` (`set(total_urls)`) equals
the mathematical union of each index's URL list, deduplicated by exact string
equality, and is invariant under permuting the order in which the per-index
results are aggregated (which is all that the concurrency level and
completion order can change). -/
theorem claim1_result_set_union (results results' : List (List String))
    (hperm : results.Perm results') :
    (∀ u, u ∈ result_set (aggregate results) ↔ ∃ l ∈ results, u ∈ l)
    ∧ result_set (aggregate results)
        = results.foldr (fun l s => l.toFinset ∪ s) ∅
    ∧ result_set (aggregate results) = result_set (aggregate results') := by
  refine ⟨?_, ?_, ?_⟩
  · intro u
    simp [result_set, aggregate, List.mem_toFinset, List.mem_flatten]
  · exact result_set_aggregate_foldr results
  · apply Finset.ext
    intro u
    simp only [result_set, aggregate, List.mem_toFinset, List.mem_flatten]
    constructor
    · rintro ⟨l, hl, hu⟩
      exact ⟨l, hperm.mem_iff.mp hl, hu⟩
    · rintro ⟨l, hl, hu⟩
      exact ⟨l, hperm.mem_iff.mpr hl, hu⟩

/-- Witness for C1 at a concrete input. -/
theorem claim1_witness :
    (["a"] : List String) ∈ [["a"], ["b", "a"]]
    ∧ result_set (aggregate [["a"], ["b", "a"]])
        = result_set (aggregate [["b", "a"], ["a"]]) :=
  ⟨by decide,
    (claim1_result_set_union [["a"], ["b", "a"]] [["b", "a"], ["a"]]
      (by decide)).2.2⟩

/-! ### Claim C8: the output file -/

/-- Claim C8: with an output path given, the written lines are exactly the
unique URLs, one per line, in lexicographic order; `append = false` fully
overwrites a pre-existing file, `append = true` adds the new lines after the
existing content, leaving it unchanged. -/
theorem claim8_output_file (existing : String) (urls : List String) :
    write_output existing false urls = output_lines urls
    ∧ write_output existing true urls = existing ++ output_lines urls
    ∧ output_lines urls
        = String.join ((sorted_unique urls).map (fun u => u ++ "\n"))
    ∧ List.Sorted (· ≤ ·) (sorted_unique urls)
    ∧ (sorted_unique urls).Nodup
    ∧ (∀ u, u ∈ sorted_unique urls ↔ u ∈ urls) := by
  refine ⟨rfl, rfl, rfl, ?_, ?_, ?_⟩
  · exact List.sorted_mergeSort' (urls.dedup)
  · exact (List.mergeSort_perm urls.dedup _).nodup_iff.mpr (List.nodup_dedup urls)
  · intro u
    exact (List.mergeSort_perm urls.dedup _).mem_iff.trans List.mem_dedup

/-! ### Claim C2: response-line handling in `query_cdx` -/

theorem processLines_ok_of (loads : String → Option JsonVal) (lines : List String)
    (h : ∀ line ∈ lines, Option.all (fun v => (getUrl v).isOk) (loads line) = true) :
    ∀ acc, processLines loads lines acc
      = Except.ok (acc ++ lines.filterMap
          (fun line => (loads line).bind (fun v => (getUrl v).toOption))) := by
  induction lines with
  | nil => intro acc; simp [processLines]
  | cons line rest ih =>
    intro acc
    have hline := h line (List.mem_cons_self _ _)
    have htail := ih (fun l hm => h l (List.mem_cons_of_mem _ hm))
    cases hl : loads line with
    | none =>
      simp [processLines, hl, List.filterMap_cons, htail]
    | some v =>
      rw [hl] at hline
      cases hg : getUrl v with
      | ok u =>
        simp [processLines, hl, hg, List.filterMap_cons, Except.toOption,
          htail, List.append_assoc]
      | error e =>
        rw [Option.all_some] at hline
        rw [hg] at hline
        simp [Except.isOk, Except.toBool] at hline

/-- Claim C2, counterexample: a response whose middle line is valid JSON but
lacks the `url` field does not merely lose that line — the uncaught
`KeyError` aborts processing, so the remaining lines of the response
(including `{"url": "b"}`) contribute nothing either. -/
theorem claim2_counterexample :
    processBody loadsEx bodyWithNoUrlLine = Except.error (PyErr.keyError "url")
    ∧ processBody loadsEx bodyWithNoUrlLine
        ≠ Except.ok [JsonVal.str "a", JsonVal.str "b"] := by
  refine ⟨rfl, ?_⟩
  intro hcontra
  rw [show processBody loadsEx bodyWithNoUrlLine
      = Except.error (PyErr.keyError "url") from rfl] at hcontra
  exact Except.noConfusion hcontra

/-- Claim C2, amended: a response line that is not valid JSON is skipped and
contributes nothing, without aborting the remaining lines; but this recovery
covers only `json.JSONDecodeError` — a line that parses to a record without
the `url` field (or to a non-object) raises an uncaught error that aborts
the rest of that response.  Under the hypothesis that every line which does
parse yields a record whose `url` lookup succeeds, processing completes and
returns exactly the extracted `url` values in line order. -/
theorem claim2_bad_json_skipped (loads : String → Option JsonVal) (text : String)
    (h : ∀ line ∈ pySplit '\n' (pyStrip text),
      Option.all (fun v => (getUrl v).isOk) (loads line) = true) :
    processBody loads text = Except.ok ((pySplit '\n' (pyStrip text)).filterMap
      (fun line => (loads line).bind (fun v => (getUrl v).toOption))) := by
  unfold processBody
  rw [processLines_ok_of loads _ h []]
  rfl

/-- Witness for C2 at a concrete input: a body whose middle line `not json`
fails to parse; the other two lines' URLs survive. -/
theorem claim2_witness :
    (∀ line ∈ pySplit '\n' (pyStrip bodyWithBadJsonLine),
      Option.all (fun v => (getUrl v).isOk) (loadsEx line) = true)
    ∧ processBody loadsEx bodyWithBadJsonLine
        = Except.ok [JsonVal.str "a", JsonVal.str "b"] :=
  ⟨by decide,
    (claim2_bad_json_skipped loadsEx bodyWithBadJsonLine (by decide)).trans rfl⟩

/-! ### Claims C3 and C7: dispatcher failure isolation and concurrency -/

theorem query_cdx_attempts_one (loads : String → Option JsonVal)
    (r : Nat → Option String) : (query_cdx loads r).2 = 1 := by
  show (cdxAttempts loads r [0]).2 = 1
  cases hr : r 0 <;> simp [cdxAttempts, hr]

theorem query_cdx_netfail (loads : String → Option JsonVal)
    (r : Nat → Option String) (hr : r 0 = none) :
    (query_cdx loads r).1 = Except.ok [] := by
  show (cdxAttempts loads r [0]).1 = Except.ok []
  simp [cdxAttempts, hr]

theorem seq_dispatch_ok (loads : String → Option JsonVal)
    (responses : String → Nat → Option String) (res : String → List JsonVal) :
    ∀ indexes : List String,
      (∀ index ∈ indexes,
        (query_cdx loads (responses index)).1 = Except.ok (res index)) →
      seq_dispatch loads responses indexes = Except.ok (indexes.flatMap res) := by
  intro indexes
  induction indexes with
  | nil => intro _; rfl
  | cons index rest ih =>
    intro h
    have hhead := h index (List.mem_cons_self _ _)
    have htail := ih (fun i hm => h i (List.mem_cons_of_mem _ hm))
    simp only [seq_dispatch, seqDispatchTraced, hhead] at *
    simp [htail, List.flatMap_cons, Except.map]

theorem conc_dispatch_eq (loads : String → Option JsonVal)
    (responses : String → Nat → Option String) (res : String → List JsonVal) :
    ∀ completed : List String,
      (∀ index ∈ completed,
        (query_cdx loads (responses index)).1 = Except.ok (res index)) →
      conc_dispatch loads responses completed = completed.flatMap res := by
  intro completed
  induction completed with
  | nil => intro _; rfl
  | cons index rest ih =>
    intro h
    have hhead := h index (List.mem_cons_self _ _)
    have htail := ih (fun i hm => h i (List.mem_cons_of_mem _ hm))
    simp only [conc_dispatch, List.flatMap_cons] at *
    rw [htail, concContribution, hhead]

/-- Claim C3, counterexample: the dispatcher can fail as a whole.  With
concurrency 1, index `i1`'s response consists of the single valid-JSON line
`{"x": 1}` with no `url` field; the uncaught `KeyError` aborts the
sequential loop of `main`, although `i2` on its own would have contributed
the URL `"b"`. -/
theorem claim3_counterexample :
    seq_dispatch loadsEx responsesEx ["i1", "i2"]
      = Except.error (PyErr.keyError "url")
    ∧ (query_cdx loadsEx (responsesEx "i2")).1
      = Except.ok [JsonVal.str "b"] :=
  ⟨rfl, rfl⟩

/-- Claim C3, amended: for every index exactly one HTTP attempt is made, and
on network failure (timeout, connection error, non-2xx status — the
request-level outcome `none`) that index yields zero URLs while the other
index queries continue and contribute their URLs; however the dispatcher is
not failure-proof as a whole — a response line that is valid JSON without a
`url` field raises an uncaught error which, with concurrency 1, aborts the
run (see the counterexample).  Under the hypothesis that every per-index
query either succeeds or fails at the network level, the sequential
dispatcher returns the concatenation of all per-index results, with
network-failed indexes contributing the empty list. -/
theorem claim3_failure_isolation (loads : String → Option JsonVal)
    (responses : String → Nat → Option String) (indexes : List String)
    (res : String → List JsonVal)
    (h : ∀ index ∈ indexes,
      (query_cdx loads (responses index)).1 = Except.ok (res index)) :
    (∀ r : Nat → Option String, (query_cdx loads r).2 = 1)
    ∧ (∀ r : Nat → Option String, r 0 = none →
        (query_cdx loads r).1 = Except.ok [])
    ∧ (∀ index ∈ indexes, responses index 0 = none → res index = [])
    ∧ seq_dispatch loads responses indexes = Except.ok (indexes.flatMap res) := by
  refine ⟨query_cdx_attempts_one loads, query_cdx_netfail loads, ?_,
    seq_dispatch_ok loads responses res indexes h⟩
  intro index hmem hnet
  have h1 := h index hmem
  rw [query_cdx_netfail loads (responses index) hnet] at h1
  exact (Except.ok.inj h1).symm

/-- Witness for C3 at a concrete input: index `i2` succeeds with one URL,
index `zzz` fails at the network level and contributes nothing. -/
theorem claim3_witness :
    seq_dispatch loadsEx responsesEx ["i2", "zzz"]
      = Except.ok (["i2", "zzz"].flatMap
          (fun i => if i = "i2" then [JsonVal.str "b"] else [])) :=
  (claim3_failure_isolation loadsEx responsesEx ["i2", "zzz"]
    (fun i => if i = "i2" then [JsonVal.str "b"] else [])
    (by
      intro i hi
      simp only [List.mem_cons, List.not_mem_nil, or_false] at hi
      rcases hi with rfl | rfl <;> rfl)).2.2.2

/-- Claim C7, counterexample: for a fixed set of per-index responses (index
`i1` answering a valid-JSON line without a `url` field, index `i2` answering
one record with URL `"b"`), the sequential path (concurrency = 1) aborts
with an uncaught error and produces no ResultSet, while the thread-pool path
catches the per-future exception and produces the ResultSet containing
`"b"` — the two paths are not identical. -/
theorem claim7_counterexample :
    seq_dispatch loadsEx responsesEx ["i1", "i2"]
      = Except.error (PyErr.keyError "url")
    ∧ conc_dispatch loadsEx responsesEx ["i1", "i2"] = [JsonVal.str "b"] :=
  ⟨rfl, rfl⟩

/-- Claim C7, amended: for a fixed set of per-index responses under which
every per-index query completes without an uncaught exception (in particular
whenever every line that parses as JSON carries a `url` field), the
sequential path and the thread-pool path (any completion order) produce
identical final ResultSets: the sequential path succeeds with the
concatenation in listing order, and the thread-pool aggregation has exactly
the same elements. -/
theorem claim7_concurrency_invariance (loads : String → Option JsonVal)
    (responses : String → Nat → Option String)
    (indexes completed : List String) (res : String → List JsonVal)
    (hperm : completed.Perm indexes)
    (h : ∀ index ∈ indexes,
      (query_cdx loads (responses index)).1 = Except.ok (res index)) :
    seq_dispatch loads responses indexes = Except.ok (indexes.flatMap res)
    ∧ ∀ v, v ∈ conc_dispatch loads responses completed
        ↔ v ∈ indexes.flatMap res := by
  refine ⟨seq_dispatch_ok loads responses res indexes h, ?_⟩
  intro v
  rw [conc_dispatch_eq loads responses res completed
    (fun i hi => h i (hperm.mem_iff.mp hi))]
  simp only [List.mem_flatMap]
  constructor
  · rintro ⟨i, hi, hv⟩
    exact ⟨i, hperm.mem_iff.mp hi, hv⟩
  · rintro ⟨i, hi, hv⟩
    exact ⟨i, hperm.mem_iff.mpr hi, hv⟩

/-- Witness for C7 at a concrete input. -/
theorem claim7_witness :
    seq_dispatch loadsEx responsesEx ["i2", "zzz"]
      = Except.ok (["i2", "zzz"].flatMap
          (fun i => if i = "i2" then [JsonVal.str "b"] else []))
    ∧ ∀ v, v ∈ conc_dispatch loadsEx responsesEx ["zzz", "i2"]
        ↔ v ∈ (["i2", "zzz"].flatMap
            (fun i => if i = "i2" then [JsonVal.str "b"] else [])) :=
  claim7_concurrency_invariance loadsEx responsesEx ["i2", "zzz"] ["zzz", "i2"]
    (fun i => if i = "i2" then [JsonVal.str "b"] else [])
    (by decide)
    (by
      intro i hi
      simp only [List.mem_cons, List.not_mem_nil, or_false] at hi
      rcases hi with rfl | rfl <;> rfl)

/-! ### Claim C6: fatal metadata failure -/

/-- Claim C6: when the metadata endpoint is unreachable or its response's
JSON cannot be parsed (`fetched = none`, covering every
`requests.exceptions.RequestException` including `JSONDecodeError`),
`get_all_indexes` returns the empty sequence; `main` then prints the
"No indexes available" failure message and returns without querying any
index and without producing a ResultSet. -/
theorem claim6_metadata_failure (loads : String → Option JsonVal)
    (responses : String → Nat → Option String)
    (completed : List String → List String) (url : String)
    (after before : Option Int) (concurrency : Int) (hurl : url ≠ "") :
    get_all_indexes none after before = []
    ∧ run_main loads none responses completed (some url) after before concurrency
        = ⟨0, [], none, true⟩ := by
  refine ⟨rfl, ?_⟩
  simp [run_main, get_all_indexes, hurl]

/-- Witness for C6 at a concrete input. -/
theorem claim6_witness :
    get_all_indexes none none none = []
    ∧ run_main loadsEx none responsesEx (fun l => l) (some "example.com")
        none none 1 = ⟨0, [], none, true⟩ :=
  claim6_metadata_failure loadsEx responsesEx (fun l => l) "example.com"
    none none 1 (by decide)

/-! ### Claim C9: exit codes -/

/-- Claim C9 (the code diverges from it): when no domain argument is
supplied, `argparse` reports the missing required positional and exits with
status 2, not 1 — the script's own `sys.exit(1)` check is unreachable in
that case and fires only for an explicitly supplied empty-string domain;
a normal run with a non-empty domain exits with 0. -/
theorem claim9_exit_codes :
    (run_main loadsEx (some ["CC-MAIN-2024-33"]) responsesEx (fun l => l)
      none none none 1).exitCode = 2
    ∧ (run_main loadsEx (some ["CC-MAIN-2024-33"]) responsesEx (fun l => l)
      (some "") none none 1).exitCode = 1
    ∧ (run_main loadsEx (some ["CC-MAIN-2024-33"]) responsesEx (fun l => l)
      (some "example.com") none none 1).exitCode = 0 :=
  ⟨rfl, rfl, rfl⟩

end Commoncrawl
